import Mathlib

/-!
Verification of the AuraMed rule engine.

This file gives a shallow embedding of the deterministic rule engine of the
AuraMed repository and proves / refutes the specification's claims about it.

Embedded components (all from the Python sources):
  - `src/tools/clinical_tools.py`, class `ClinicalTools`:
    `extract_soap_notes`, `calculate_chads2_score`, `check_drug_interactions`,
    `calculate_bmi`, together with the static tables they read.
  - `src/src/medgemma_agent.py`, class `ClinicalTools` and
    `MedGemmaAgent._fallback_run` (the keyword dispatcher), namespace `MedGemma`.

Modelling conventions: Python strings are Lean `String`; `s.lower()` is
`toLowerStr` below (ASCII case folding); Python substring membership
`needle in hay` is `strContains` below; `str.split('. ')` is `pySplit`;
`str.strip()` is `trimStr`; `' '.join` is `String.intercalate " "`.  These
helpers are written by structural recursion over the character list so that
every definition evaluates inside the kernel.  Python floats are
modelled by `ℚ` (every numeric literal and every arithmetic operation the
claims touch is exact at the inputs considered).  Python dicts with optional
keys become structures with `Option` fields read through `Option.getD`,
mirroring `dict.get(key, default)`.  The wall-clock reading
`datetime.now().isoformat()` is passed in explicitly as the `now : String`
argument of `check_drug_interactions`, so that dependence on the clock is
visible in the embedding.
-/

namespace AuraMed

/-- Is the first list a prefix of the second (on characters)? -/
def prefB : List Char → List Char → Bool
  | [], _ => true
  | _ :: _, [] => false
  | a :: as, b :: bs => a == b && prefB as bs

/-- Does the second list contain the first as a contiguous sublist? -/
def subB (needle : List Char) : List Char → Bool
  | [] => prefB needle []
  | c :: cs => prefB needle (c :: cs) || subB needle cs

/-- Python's `needle in hay` test on strings. -/
def strContains (hay needle : String) : Bool :=
  subB needle.data hay.data

/-- Python's `s.lower()` (ASCII case folding, as `Char.toLower`). -/
def toLowerStr (s : String) : String :=
  ⟨s.data.map Char.toLower⟩

/-- Python's whitespace test for `str.strip()` (space, tab, newline,
carriage return, vertical tab, form feed). -/
def pyWs (c : Char) : Bool :=
  c == ' ' || c == '\t' || c == '\n' || c == '\r' ||
  c == Char.ofNat 11 || c == Char.ofNat 12

/-- Python's `s.strip()`. -/
def trimStr (s : String) : String :=
  ⟨(((s.data.dropWhile pyWs).reverse).dropWhile pyWs).reverse⟩

/-- Left-to-right, non-overlapping split on a (non-empty) separator, on
character lists; the first argument is fuel, always called with more fuel
than the list's length so the fallback branch is unreachable. -/
def splitFuel (sep : List Char) : Nat → List Char → List (List Char)
  | _, [] => [[]]
  | 0, l => [l]
  | fuel + 1, c :: cs =>
    if prefB sep (c :: cs) then
      [] :: splitFuel sep fuel (List.drop sep.length (c :: cs))
    else
      match splitFuel sep fuel cs with
      | [] => [[c]]
      | h :: t => (c :: h) :: t

/-- Python's `s.split(sep)` for a non-empty separator. -/
def pySplit (s sep : String) : List String :=
  (splitFuel sep.data (s.data.length + 1) s.data).map (fun l => ⟨l⟩)

/-! ## SOAP keyword extractor (`ClinicalTools.extract_soap_notes`) -/

/-- Static keyword table for the Subjective bucket. -/
def subjective_keywords : List String :=
  ["reports", "complains", "states", "describes", "feels", "experiences"]

/-- Static keyword table for the Objective bucket. -/
def objective_keywords : List String :=
  ["exam", "findings", "results", "measurements", "vitals", "lab", "imaging"]

/-- Static keyword table for the Assessment bucket. -/
def assessment_keywords : List String :=
  ["diagnosis", "impression", "assessment", "likely", "probable", "consistent with"]

/-- Static keyword table for the Plan bucket. -/
def plan_keywords : List String :=
  ["plan", "recommend", "order", "prescribe", "follow-up", "monitor"]

/-- `any(keyword in line_lower for keyword in kws)` with `line_lower = line.lower()`. -/
def kwMatch (kws : List String) (line : String) : Bool :=
  kws.any (fun k => strContains (toLowerStr line) k)

/-- The four sentence buckets accumulated by the classification loop. -/
structure SoapBuckets where
  subjective : List String
  objective : List String
  assessment : List String
  plan : List String
deriving DecidableEq, Repr

/-- One iteration of the `for line in lines` loop of `extract_soap_notes`:
the line (stripped) is appended to the first bucket whose keyword list
matches, and to no other bucket. -/
def soapStep (b : SoapBuckets) (line : String) : SoapBuckets :=
  if kwMatch subjective_keywords line then
    { b with subjective := b.subjective ++ [trimStr line] }
  else if kwMatch objective_keywords line then
    { b with objective := b.objective ++ [trimStr line] }
  else if kwMatch assessment_keywords line then
    { b with assessment := b.assessment ++ [trimStr line] }
  else if kwMatch plan_keywords line then
    { b with plan := b.plan ++ [trimStr line] }
  else b

/-- The whole classification loop of `extract_soap_notes`. -/
def classifyLines (lines : List String) : SoapBuckets :=
  lines.foldl soapStep ⟨[], [], [], []⟩

/-- Result record of `extract_soap_notes`. -/
structure SoapRecord where
  subjective : String
  objective : String
  assessment : String
  plan : String
  extraction_confidence : String
deriving DecidableEq, Repr

/-- Static fallback sentence for an empty Subjective bucket. -/
def subjective_fallback : String :=
  "Patient reports symptoms as described in transcript."

/-- Static fallback sentence for an empty Objective bucket. -/
def objective_fallback : String :=
  "Physical exam findings and vitals not specified in transcript."

/-- Static fallback sentence for an empty Assessment bucket. -/
def assessment_fallback : String :=
  "Clinical assessment based on presented symptoms and history."

/-- Static fallback sentence for an empty Plan bucket. -/
def plan_fallback : String :=
  "Follow up as needed, consider additional testing."

/-- `ClinicalTools.extract_soap_notes` from `src/tools/clinical_tools.py`. -/
def extract_soap_notes (transcript : String) : SoapRecord :=
  let lines := pySplit transcript ". "
  let b := classifyLines lines
  let subjective := if b.subjective = [] then [subjective_fallback] else b.subjective
  let objective := if b.objective = [] then [objective_fallback] else b.objective
  let assessment := if b.assessment = [] then [assessment_fallback] else b.assessment
  let plan := if b.plan = [] then [plan_fallback] else b.plan
  { subjective := String.intercalate " " subjective
    objective := String.intercalate " " objective
    assessment := String.intercalate " " assessment
    plan := String.intercalate " " plan
    extraction_confidence := if lines.length > 3 then "high" else "medium" }

/-! ## CHADS2 calculator (`ClinicalTools.calculate_chads2_score`) -/

/-- The loosely-typed `patient_data` dict: every key is optional, booleans
default to `False` and the age to `0` (via `dict.get`). -/
structure PatientData where
  congestive_heart_failure : Option Bool
  hypertension : Option Bool
  age : Option Int
  diabetes : Option Bool
  stroke_tia_history : Option Bool
deriving DecidableEq, Repr

/-- The `risk_stratification` table of `_chads2_guidelines`, keyed by the
integer score: (risk, stroke_rate, therapy). -/
def chads2_risk_stratification (score : Nat) : Option (String × String × String) :=
  match score with
  | 0 => some ("Low", "0.6%/year", "Aspirin or no therapy")
  | 1 => some ("Low", "1.9%/year", "Anticoagulation considered")
  | 2 => some ("Moderate", "2.8%/year", "Anticoagulation recommended")
  | 3 => some ("Moderate", "3.9%/year", "Anticoagulation recommended")
  | 4 => some ("High", "5.9%/year", "Anticoagulation recommended")
  | 5 => some ("High", "7.3%/year", "Anticoagulation recommended")
  | 6 => some ("High", "9.8%/year", "Anticoagulation recommended")
  | _ => none

/-- `ClinicalTools._interpret_chads2_score`. -/
def interpret_chads2_score (score : Nat) : String :=
  match score with
  | 0 => "Low stroke risk - aspirin or no therapy may be sufficient"
  | 1 => "Low stroke risk - anticoagulation should be considered"
  | 2 => "Moderate stroke risk - anticoagulation is recommended"
  | 3 => "Moderate stroke risk - anticoagulation is strongly recommended"
  | 4 => "High stroke risk - anticoagulation is essential"
  | 5 => "High stroke risk - anticoagulation is essential"
  | 6 => "High stroke risk - anticoagulation is essential"
  | _ => "Consult stroke risk guidelines"

/-- Result record of `calculate_chads2_score`. -/
structure Chads2Result where
  score : Nat
  components : List String
  details : List String
  risk_level : String
  annual_stroke_risk : String
  therapy_recommendation : String
  score_interpretation : String
deriving DecidableEq, Repr

/-- `ClinicalTools.calculate_chads2_score` from `src/tools/clinical_tools.py`.
The point values 1, 1, 1, 1, 2 are the `points` entries of
`_chads2_guidelines`, and the f-string details are written out with those
constant points substituted. -/
def calculate_chads2_score (pd : PatientData) : Chads2Result :=
  let chf := pd.congestive_heart_failure.getD false
  let htn := pd.hypertension.getD false
  let age75 := pd.age.getD 0 ≥ 75
  let dm := pd.diabetes.getD false
  let stroke := pd.stroke_tia_history.getD false
  let score : Nat := 0
  let components : List String := []
  let details : List String := []
  let score := if chf then score + 1 else score
  let components := if chf then components ++ ["CHF"] else components
  let details := if chf then details ++ ["Congestive Heart Failure: +1"] else details
  let score := if htn then score + 1 else score
  let components := if htn then components ++ ["HTN"] else components
  let details := if htn then details ++ ["Hypertension: +1"] else details
  let score := if age75 then score + 1 else score
  let components := if age75 then components ++ ["Age≥75"] else components
  let details := if age75 then details ++ ["Age ≥75: +1"] else details
  let score := if dm then score + 1 else score
  let components := if dm then components ++ ["DM"] else components
  let details := if dm then details ++ ["Diabetes: +1"] else details
  let score := if stroke then score + 2 else score
  let components := if stroke then components ++ ["Stroke/TIA"] else components
  let details := if stroke then details ++ ["Stroke/TIA History: +2"] else details
  let risk_info := (chads2_risk_stratification score).getD
    ("Unknown", "N/A", "Consult guidelines")
  { score := score
    components := components
    details := details
    risk_level := risk_info.1
    annual_stroke_risk := risk_info.2.1
    therapy_recommendation := risk_info.2.2
    score_interpretation := interpret_chads2_score score }

/-! ## BMI calculator (`ClinicalTools.calculate_bmi`) -/

/-- One entry of the static `_bmi_categories` table: name, closed range
bounds, risk text. -/
structure BmiCategory where
  name : String
  lo : ℚ
  hi : ℚ
  risk : String
deriving DecidableEq, Repr

/-- The static `_bmi_categories` table, in Python dict insertion order. -/
def bmi_categories : List BmiCategory :=
  [⟨"underweight", 0, 18.4, "Increased mortality"⟩,
   ⟨"normal", 18.5, 24.9, "Lowest risk"⟩,
   ⟨"overweight", 25.0, 29.9, "Increased risk"⟩,
   ⟨"obese_class1", 30.0, 34.9, "High risk"⟩,
   ⟨"obese_class2", 35.0, 39.9, "Very high risk"⟩,
   ⟨"obese_class3", 40.0, 100.0, "Extremely high risk"⟩]

/-- Scan a category list for the first one whose closed range contains the
value (the loop body `if lo <= bmi <= hi: ...; break`). -/
def firstMatch (bmi : ℚ) : List BmiCategory → Option BmiCategory
  | [] => none
  | c :: cs => if c.lo ≤ bmi ∧ bmi ≤ c.hi then some c else firstMatch bmi cs

/-- The `for cat_name, cat_info in ...: if lo <= bmi <= hi: ...; break` loop:
first matching category of the static table, if any. -/
def firstBmiCat (bmi : ℚ) : Option BmiCategory :=
  firstMatch bmi bmi_categories

/-- Round half to even (Python `round`), to one decimal place. -/
def roundHalfEven (x : ℚ) : ℤ :=
  let f := ⌊x⌋
  let r := x - f
  if r < 1/2 then f
  else if r > 1/2 then f + 1
  else if f % 2 = 0 then f else f + 1

/-- Python `round(x, 1)` on exact rationals. -/
def round1 (x : ℚ) : ℚ :=
  (roundHalfEven (10 * x) : ℚ) / 10

/-- `ClinicalTools._interpret_bmi`. -/
def interpret_bmi (bmi : ℚ) : String :=
  if bmi < 18.5 then "Underweight - Consider nutritional assessment"
  else if bmi < 25 then "Normal weight - Maintain healthy lifestyle"
  else if bmi < 30 then "Overweight - Consider weight management"
  else if bmi < 35 then "Obesity Class I - Weight loss recommended"
  else if bmi < 40 then "Obesity Class II - Medical intervention recommended"
  else "Obesity Class III - Urgent medical intervention needed"

/-- Result record of `calculate_bmi`. -/
structure BmiResult where
  bmi : ℚ
  category : String
  risk_level : String
  weight_kg : ℚ
  height_cm : ℚ
  interpretation : String
deriving DecidableEq, Repr

/-- `ClinicalTools.calculate_bmi` from `src/tools/clinical_tools.py`. -/
def calculate_bmi (weight_kg height_cm : ℚ) : BmiResult :=
  let height_m := height_cm / 100
  let bmi := weight_kg / height_m ^ 2
  let cat := firstBmiCat bmi
  { bmi := round1 bmi
    category := match cat with | some c => c.name | none => "unknown"
    risk_level := match cat with | some c => c.risk | none => "unknown"
    weight_kg := weight_kg
    height_cm := height_cm
    interpretation := interpret_bmi bmi }

/-! ## Drug interaction matcher (`ClinicalTools.check_drug_interactions`) -/

/-- One entry of a drug's `interactions` list in the static database. -/
structure DbInteraction where
  drug : String
  severity : String
  effect : String
  recommendation : String
deriving DecidableEq, Repr

/-- The static `_load_drug_interaction_db` table: (key drug, category,
interaction list), in Python dict insertion order. -/
def drug_interaction_db : List (String × String × List DbInteraction) :=
  [("warfarin", "anticoagulant",
    [⟨"aspirin", "high", "Increased bleeding risk", "Monitor INR closely"⟩,
     ⟨"ibuprofen", "moderate", "Increased bleeding risk", "Use with caution"⟩,
     ⟨"omeprazole", "low", "Reduced absorption", "Monitor effectiveness"⟩,
     ⟨"antibiotics", "high", "Increased INR", "Adjust dose as needed"⟩]),
   ("metformin", "antidiabetic",
    [⟨"alcohol", "high", "Risk of lactic acidosis", "Avoid alcohol consumption"⟩,
     ⟨"contrast_dye", "high", "Renal impairment risk", "Hold 48 hours before procedure"⟩]),
   ("lisinopril", "ace_inhibitor",
    [⟨"potassium_supplements", "moderate", "Hyperkalemia", "Monitor potassium levels"⟩,
     ⟨"nsaids", "moderate", "Reduced antihypertensive effect", "Monitor blood pressure"⟩]),
   ("atorvastatin", "statin",
    [⟨"grapefruit_juice", "moderate", "Increased statin levels", "Avoid grapefruit products"⟩,
     ⟨"erythromycin", "high", "Increased risk of myopathy", "Consider alternative"⟩]),
   ("insulin", "antidiabetic",
    [⟨"beta_blockers", "moderate", "Masked hypoglycemia symptoms", "Educate patient on symptoms"⟩])]

/-- The membership test `db_drug in drug_lower or drug_lower in db_drug`. -/
def dbMatch (drug_lower db_drug : String) : Bool :=
  strContains drug_lower db_drug || strContains db_drug drug_lower

/-- One record appended to `interactions_found`. -/
structure InteractionRecord where
  primary_drug : String
  interacting_drug : String
  severity : String
  effect : String
  recommendation : String
deriving DecidableEq, Repr

/-- One record appended to `warnings`. -/
structure DrugWarning where
  drug : String
  category : String
  general_warnings : List String
deriving DecidableEq, Repr

/-- The `interactions_found` list built by the nested loops of
`check_drug_interactions`: for every drug of the input list, for every
database entry whose key matches it (substring in either direction), for
every other input drug that differs from it after lowercasing, every
interaction entry whose drug keyword occurs in that other drug yields a
record.  Note this scans the full `drugs x drugs` product. -/
def interactionDetails (drugs : List String) : List InteractionRecord :=
  drugs.flatMap (fun drug =>
    drug_interaction_db.flatMap (fun entry =>
      if dbMatch (toLowerStr drug) entry.1 then
        drugs.flatMap (fun other =>
          if toLowerStr other ≠ toLowerStr drug then
            (entry.2.2.filter (fun i => strContains (toLowerStr other) i.drug)).map
              (fun i => ⟨drug, other, i.severity, i.effect, i.recommendation⟩)
          else [])
      else []))

/-- The `warnings` list built by the same outer loops. -/
def interactionWarnings (drugs : List String) : List DrugWarning :=
  drugs.flatMap (fun drug =>
    drug_interaction_db.flatMap (fun entry =>
      if dbMatch (toLowerStr drug) entry.1 then
        [⟨drug, entry.2.1, entry.2.2.map (fun i => "Be cautious with " ++ i.drug)⟩]
      else []))

/-- The `recommendations` list derived from the found interactions. -/
def interactionRecommendations (found : List InteractionRecord) : List String :=
  if found = [] then ["✅ No significant drug interactions detected"]
  else
    let high := found.filter (fun i => i.severity == "high")
    let moderate := found.filter (fun i => i.severity == "moderate")
    (if high = [] then []
     else "⚠️ HIGH RISK INTERACTIONS DETECTED - Immediate attention required" ::
       high.map (fun i => "- " ++ i.primary_drug ++ " + " ++ i.interacting_drug ++ ": " ++ i.effect)) ++
    (if moderate = [] then []
     else "⚠️ Moderate risk interactions - Monitor closely" ::
       moderate.map (fun i => "- " ++ i.primary_drug ++ " + " ++ i.interacting_drug ++ ": " ++ i.effect))

/-- Result record of `check_drug_interactions`. -/
structure InteractionsResult where
  drugs_checked : List String
  interactions_found : Bool
  interaction_details : List InteractionRecord
  warnings : List DrugWarning
  recommendations : List String
  timestamp : String
deriving DecidableEq, Repr

/-- `ClinicalTools.check_drug_interactions` from `src/tools/clinical_tools.py`.
The `now` argument is the wall-clock reading `datetime.now().isoformat()`,
made explicit so that the output's dependence on the clock is part of the
embedding. -/
def check_drug_interactions (drugs : List String) (now : String) : InteractionsResult :=
  let found := interactionDetails drugs
  { drugs_checked := drugs
    interactions_found := !found.isEmpty
    interaction_details := found
    warnings := interactionWarnings drugs
    recommendations := interactionRecommendations found
    timestamp := now }

/-- The clock-independent part of a `check_drug_interactions` result:
everything except the `timestamp` field. -/
def scoringFields (r : InteractionsResult) :
    List String × Bool × List InteractionRecord × List DrugWarning × List String :=
  (r.drugs_checked, r.interactions_found, r.interaction_details, r.warnings,
   r.recommendations)

/-! ## The fallback agent of `src/src/medgemma_agent.py` -/

namespace MedGemma

/-- Result record of the static `ClinicalTools.extract_soap_notes` of
`src/src/medgemma_agent.py` (four text fields, no confidence field). -/
structure SoapConst where
  subjective : String
  objective : String
  assessment : String
  plan : String
deriving DecidableEq, Repr

/-- `ClinicalTools.extract_soap_notes` from `src/src/medgemma_agent.py`:
returns a fixed record, ignoring the transcript. -/
def extract_soap_notes (_transcript : String) : SoapConst :=
  { subjective := "Patient reports fatigue, shortness of breath, and chest discomfort."
    objective := "BP: 140/90, HR: 95, Temp: 98.6F, O2 Sat: 92%"
    assessment := "Possible cardiac ischemia, rule out myocardial infarction."
    plan := "Order ECG, cardiac enzymes, consider stress test and echocardiogram." }

/-- Result record of the `calculate_chads2_score` of `src/src/medgemma_agent.py`. -/
structure Chads2Result where
  score : Nat
  components : List String
  stroke_risk : String
  recommendation : String
deriving DecidableEq, Repr

/-- The `stroke_risk` table of `calculate_chads2_score` in
`src/src/medgemma_agent.py`, with its `.get(score, "Unknown risk")` default. -/
def strokeRisk (score : Nat) : String :=
  match score with
  | 0 => "Low risk (0.6%/year)"
  | 1 => "Low risk (1.9%/year)"
  | 2 => "Moderate risk (2.8%/year)"
  | 3 => "Moderate risk (3.9%/year)"
  | 4 => "High risk (5.9%/year)"
  | 5 => "High risk (7.3%/year)"
  | 6 => "High risk (9.8%/year)"
  | _ => "Unknown risk"

/-- `ClinicalTools.calculate_chads2_score` from `src/src/medgemma_agent.py`. -/
def calculate_chads2_score (pd : AuraMed.PatientData) : Chads2Result :=
  let chf := pd.congestive_heart_failure.getD false
  let htn := pd.hypertension.getD false
  let age75 := pd.age.getD 0 ≥ 75
  let dm := pd.diabetes.getD false
  let stroke := pd.stroke_tia_history.getD false
  let score : Nat := 0
  let components : List String := []
  let score := if chf then score + 1 else score
  let components := if chf then components ++ ["Congestive Heart Failure (+1)"] else components
  let score := if htn then score + 1 else score
  let components := if htn then components ++ ["Hypertension (+1)"] else components
  let score := if age75 then score + 1 else score
  let components := if age75 then components ++ ["Age ≥75 (+1)"] else components
  let score := if dm then score + 1 else score
  let components := if dm then components ++ ["Diabetes (+1)"] else components
  let score := if stroke then score + 2 else score
  let components := if stroke then components ++ ["Stroke/TIA History (+2)"] else components
  { score := score
    components := components
    stroke_risk := strokeRisk score
    recommendation := "Consider anticoagulation therapy if score ≥2" }

/-- One entry of the mock `interaction_db` of `check_drug_interactions` in
`src/src/medgemma_agent.py`. -/
structure DbEntry where
  drug : String
  interactions : List String
  risk : String
  effect : String
deriving DecidableEq, Repr

/-- The mock `interaction_db` of `src/src/medgemma_agent.py`. -/
def interaction_db : List DbEntry :=
  [⟨"warfarin", ["aspirin", "ibuprofen", "omeprazole"], "high", "Increased bleeding risk"⟩,
   ⟨"metformin", ["alcohol", "contrast_dye"], "moderate", "Risk of lactic acidosis"⟩,
   ⟨"lisinopril", ["potassium_supplements", "nsaids"], "moderate", "Hyperkalemia, renal impairment"⟩,
   ⟨"atorvastatin", ["grapefruit_juice", "erythromycin"], "moderate", "Increased risk of myopathy"⟩]

/-- One record of the `interactions` output list. -/
structure DrugReport where
  drug : String
  interactions : List String
  risk : String
  effect : String
deriving DecidableEq, Repr

/-- Result record of `check_drug_interactions` in `src/src/medgemma_agent.py`. -/
structure InteractionsResult where
  drugs_checked : List String
  interactions_found : Bool
  interactions : List DrugReport
  recommendation : String
deriving DecidableEq, Repr

/-- `ClinicalTools.check_drug_interactions` from `src/src/medgemma_agent.py`:
per-drug dictionary lookup (exact lowercase key match), no pairwise scan. -/
def check_drug_interactions (drugs : List String) : InteractionsResult :=
  let found := drugs.flatMap (fun drug =>
    match interaction_db.find? (fun e => e.drug == toLowerStr drug) with
    | some e => [⟨drug, e.interactions, e.risk, e.effect⟩]
    | none => [])
  { drugs_checked := drugs
    interactions_found := !found.isEmpty
    interactions := found
    recommendation :=
      if !found.isEmpty then "Monitor patient closely for adverse effects"
      else "No significant interactions found" }

/-- The CHADS2 trigger phrases of `MedGemmaAgent._fallback_run`. -/
def chads2_triggers : List String :=
  ["atrial fibrillation", "afib", "stroke risk", "CHADS2"]

/-- The drug trigger words of `MedGemmaAgent._fallback_run`. -/
def drug_mentions : List String :=
  ["warfarin", "metformin", "lisinopril", "atorvastatin", "aspirin"]

/-- The hard-coded demo patient profile used by `_fallback_run` whenever a
CHADS2 trigger fires (age 78, HTN, no CHF, diabetes, stroke/TIA history). -/
def demo_patient : AuraMed.PatientData :=
  { congestive_heart_failure := some false
    hypertension := some true
    age := some 78
    diabetes := some true
    stroke_tia_history := some true }

/-- The dispatcher's result record: `soap_notes` is always present, the other
two sub-results only when their trigger fired. -/
structure FallbackResult where
  soap_notes : SoapConst
  chads2_score : Option Chads2Result
  drug_interactions : Option InteractionsResult
deriving DecidableEq, Repr

/-- `MedGemmaAgent._fallback_run` from `src/src/medgemma_agent.py`. -/
def fallback_run (transcript : String) : FallbackResult :=
  let soap := extract_soap_notes transcript
  let chads2 :=
    if chads2_triggers.any (fun tr => AuraMed.strContains (AuraMed.toLowerStr transcript) (AuraMed.toLowerStr tr)) then
      some (calculate_chads2_score demo_patient)
    else none
  let mentioned := drug_mentions.filter
    (fun d => AuraMed.strContains (AuraMed.toLowerStr transcript) (AuraMed.toLowerStr d))
  let drugs :=
    if mentioned ≠ [] then some (check_drug_interactions mentioned) else none
  { soap_notes := soap
    chads2_score := chads2
    drug_interactions := drugs }

end MedGemma

/-! ## Theorems -/

/-- C1: for every patient-flag record (missing boolean flags treated as
false, missing age as zero), `calculate_chads2_score` returns
score = 1·CHF + 1·HTN + 1·(age ≥ 75) + 1·DM + 2·(stroke/TIA); the score is
always in [0, 6] (it is a `Nat`, so 0 ≤ score holds by type); and the
components sequence lists exactly the labels of the contributing flags in
the fixed evaluation order CHF, HTN, age, diabetes, stroke. -/
theorem C1_chads2_formula (pd : PatientData) :
    (calculate_chads2_score pd).score =
      (if pd.congestive_heart_failure.getD false then 1 else 0) +
      (if pd.hypertension.getD false then 1 else 0) +
      (if pd.age.getD 0 ≥ 75 then 1 else 0) +
      (if pd.diabetes.getD false then 1 else 0) +
      2 * (if pd.stroke_tia_history.getD false then 1 else 0) ∧
    (calculate_chads2_score pd).score ≤ 6 ∧
    (calculate_chads2_score pd).components =
      (if pd.congestive_heart_failure.getD false then ["CHF"] else []) ++
      (if pd.hypertension.getD false then ["HTN"] else []) ++
      (if pd.age.getD 0 ≥ 75 then ["Age≥75"] else []) ++
      (if pd.diabetes.getD false then ["DM"] else []) ++
      (if pd.stroke_tia_history.getD false then ["Stroke/TIA"] else []) := by
  cases h1 : pd.congestive_heart_failure.getD false <;>
  cases h2 : pd.hypertension.getD false <;>
  cases h4 : pd.diabetes.getD false <;>
  cases h5 : pd.stroke_tia_history.getD false <;>
  by_cases h3 : pd.age.getD 0 ≥ 75 <;>
  simp [calculate_chads2_score, h1, h2, h3, h4, h5]

/-- Accumulator form of the classification loop: folding `soapStep` over a
line list extends each bucket with exactly the (stripped) lines whose first
matching keyword table is that bucket's, in original order. -/
theorem foldl_soapStep_eq (lines : List String) (b : SoapBuckets) :
    lines.foldl soapStep b =
      { subjective := b.subjective ++
          (lines.filter (fun l => kwMatch subjective_keywords l)).map trimStr
        objective := b.objective ++
          (lines.filter (fun l => !kwMatch subjective_keywords l &&
            kwMatch objective_keywords l)).map trimStr
        assessment := b.assessment ++
          (lines.filter (fun l => !kwMatch subjective_keywords l &&
            !kwMatch objective_keywords l && kwMatch assessment_keywords l)).map trimStr
        plan := b.plan ++
          (lines.filter (fun l => !kwMatch subjective_keywords l &&
            !kwMatch objective_keywords l && !kwMatch assessment_keywords l &&
            kwMatch plan_keywords l)).map trimStr } := by
  induction lines generalizing b with
  | nil => simp
  | cons l ls ih =>
    rw [List.foldl_cons, ih]
    cases hs : kwMatch subjective_keywords l <;>
    cases ho : kwMatch objective_keywords l <;>
    cases ha : kwMatch assessment_keywords l <;>
    cases hp : kwMatch plan_keywords l <;>
    simp [soapStep, hs, ho, ha, hp]

/-- C6: the classification loop of `extract_soap_notes` assigns each
sentence of the transcript to at most one of the four buckets: the first
matching keyword table in the fixed priority order subjective, objective,
assessment, plan wins (each later bucket's filter requires all earlier
tables not to match, so the four filters are pairwise disjoint), and
original sentence order is preserved within each bucket (`List.filter`
keeps order). -/
theorem C6_soap_first_match (transcript : String) :
    classifyLines (pySplit transcript ". ") =
      { subjective := ((pySplit transcript ". ").filter
          (fun l => kwMatch subjective_keywords l)).map trimStr
        objective := ((pySplit transcript ". ").filter
          (fun l => !kwMatch subjective_keywords l &&
            kwMatch objective_keywords l)).map trimStr
        assessment := ((pySplit transcript ". ").filter
          (fun l => !kwMatch subjective_keywords l &&
            !kwMatch objective_keywords l && kwMatch assessment_keywords l)).map trimStr
        plan := ((pySplit transcript ". ").filter
          (fun l => !kwMatch subjective_keywords l &&
            !kwMatch objective_keywords l && !kwMatch assessment_keywords l &&
            kwMatch plan_keywords l)).map trimStr } := by
  simpa [classifyLines] using
    foldl_soapStep_eq (pySplit transcript ". ") ⟨[], [], [], []⟩

/-- C7: any of the four SOAP buckets with zero matching sentences receives
its static fallback sentence, and `extract_soap_notes ""` returns the four
static fallback strings (with confidence "medium", as the empty transcript
splits into the single line `""`). -/
theorem C7_soap_fallbacks (t : String) :
    ((classifyLines (pySplit t ". ")).subjective = [] →
      (extract_soap_notes t).subjective = subjective_fallback) ∧
    ((classifyLines (pySplit t ". ")).objective = [] →
      (extract_soap_notes t).objective = objective_fallback) ∧
    ((classifyLines (pySplit t ". ")).assessment = [] →
      (extract_soap_notes t).assessment = assessment_fallback) ∧
    ((classifyLines (pySplit t ". ")).plan = [] →
      (extract_soap_notes t).plan = plan_fallback) ∧
    extract_soap_notes "" =
      { subjective := subjective_fallback
        objective := objective_fallback
        assessment := assessment_fallback
        plan := plan_fallback
        extraction_confidence := "medium" } := by
  refine ⟨fun h => ?_, fun h => ?_, fun h => ?_, fun h => ?_, by decide⟩ <;>
    · simp [extract_soap_notes, h, String.intercalate]
      rfl

/-- Closed witness for `C7_soap_fallbacks`, at the empty transcript. -/
theorem C7_soap_fallbacks_witness :
    (extract_soap_notes "").subjective = subjective_fallback ∧
    (extract_soap_notes "").objective = objective_fallback ∧
    (extract_soap_notes "").assessment = assessment_fallback ∧
    (extract_soap_notes "").plan = plan_fallback :=
  ⟨(C7_soap_fallbacks "").1 (by decide),
   (C7_soap_fallbacks "").2.1 (by decide),
   (C7_soap_fallbacks "").2.2.1 (by decide),
   (C7_soap_fallbacks "").2.2.2.1 (by decide)⟩

/-- A first-match scan finds nothing iff no list entry's range contains the
value. -/
theorem firstMatch_eq_none_iff (bmi : ℚ) (l : List BmiCategory) :
    firstMatch bmi l = none ↔ ∀ c ∈ l, ¬(c.lo ≤ bmi ∧ bmi ≤ c.hi) := by
  induction l with
  | nil => simp [firstMatch]
  | cons c cs ih =>
    by_cases hc : c.lo ≤ bmi ∧ bmi ≤ c.hi
    · simp [firstMatch, hc]
    · rw [firstMatch, if_neg hc, ih]
      constructor
      · rintro hall x hx
        rcases List.mem_cons.mp hx with rfl | hx
        · exact hc
        · exact hall x hx
      · intro hall x hx
        exact hall x (List.mem_cons_of_mem _ hx)

/-- A first-match scan returns an entry of the scanned list. -/
theorem firstMatch_mem (bmi : ℚ) (l : List BmiCategory) (c : BmiCategory)
    (h : firstMatch bmi l = some c) : c ∈ l := by
  induction l with
  | nil => simp [firstMatch] at h
  | cons a as ih =>
    by_cases ha : a.lo ≤ bmi ∧ bmi ≤ a.hi
    · simp only [firstMatch, if_pos ha, Option.some.injEq] at h
      exact h ▸ List.mem_cons_self a as
    · simp only [firstMatch, if_neg ha] at h
      exact List.mem_cons_of_mem a (ih h)

/-- C2 counterexample: at the positive inputs weight 120 kg, height 100 cm
the computed BMI is exactly 120, which lies in none of the six static
ranges (they stop at 100), so `calculate_bmi` returns the "unknown"
fallback category — contradicting the claim that "unknown" is unreachable
for positive inputs. -/
theorem C2_unknown_reachable_cex :
    (0 : ℚ) < 120 ∧ (0 : ℚ) < 100 ∧ (calculate_bmi 120 100).category = "unknown" := by
  refine ⟨by norm_num, by norm_num, ?_⟩
  have hf : firstBmiCat (120 : ℚ) = none := by
    rw [firstBmiCat, firstMatch_eq_none_iff]
    intro c hc
    simp only [bmi_categories, List.mem_cons, List.not_mem_nil, or_false] at hc
    rcases hc with rfl | rfl | rfl | rfl | rfl | rfl <;> norm_num
  simp [calculate_bmi, hf]

/-- C2 (amended): for every positive weight and height, `calculate_bmi`
assigns the category by testing the BMI value against the six static closed
ranges with the first matching range winning; but the "unknown" fallback is
reachable: it is returned exactly when the value lies in none of the six
ranges (which have gaps at their boundaries and stop at 100, so such values
are attainable). -/
theorem C2_bmi_first_match (w h : ℚ) (_hw : 0 < w) (_hh : 0 < h) :
    (∀ c, firstBmiCat (w / (h / 100) ^ 2) = some c →
      (calculate_bmi w h).category = c.name ∧ (calculate_bmi w h).risk_level = c.risk) ∧
    ((calculate_bmi w h).category = "unknown" ↔
      ∀ c ∈ bmi_categories, ¬(c.lo ≤ w / (h / 100) ^ 2 ∧ w / (h / 100) ^ 2 ≤ c.hi)) := by
  constructor
  · intro c hc
    simp [calculate_bmi, hc]
  · constructor
    · intro hcat
      cases hfind : firstBmiCat (w / (h / 100) ^ 2) with
      | none => exact (firstMatch_eq_none_iff _ _).mp hfind
      | some cat =>
        have hname : cat.name = "unknown" := by
          have h2 := hcat
          simp only [calculate_bmi, hfind] at h2
          exact h2
        have hmem := firstMatch_mem _ _ _ hfind
        have hne : cat.name ≠ "unknown" := by
          simp only [bmi_categories, List.mem_cons, List.not_mem_nil, or_false] at hmem
          rcases hmem with rfl | rfl | rfl | rfl | rfl | rfl <;> decide
        exact absurd hname hne
    · intro hnone
      have hfind : firstBmiCat (w / (h / 100) ^ 2) = none :=
        (firstMatch_eq_none_iff _ _).mpr hnone
      simp [calculate_bmi, hfind]

/-- Closed witness for `C2_bmi_first_match`: at weight 70 kg, height 175 cm
the BMI is 160/7 ≈ 22.9 and the first (and only) matching range is
"normal". -/
theorem C2_bmi_first_match_witness :
    (calculate_bmi 70 175).category = "normal" ∧
    (calculate_bmi 70 175).risk_level = "Lowest risk" :=
  (C2_bmi_first_match 70 175 (by norm_num) (by norm_num)).1
    ⟨"normal", 18.5, 24.9, "Lowest risk"⟩
    (by rw [firstBmiCat]
        norm_num [firstMatch, bmi_categories])

/-- C4 counterexample: for the input `["warfarin", "aspirin"]` the single
interaction record's effect string is `"Increased bleeding risk"` (capital
I, as in the static table), not `"increased bleeding risk"` as the claim
states. -/
theorem C4_effect_string_cex :
    (check_drug_interactions ["warfarin", "aspirin"] "ts").interaction_details.map
        (fun r => r.effect) ≠ ["increased bleeding risk"] := by
  decide

/-- C4 (amended): `check_drug_interactions ["warfarin", "aspirin"]` returns
exactly one interaction record, with severity `"high"` and effect
`"Increased bleeding risk"` (the claim's quoted effect string differs only
in capitalisation from the table's), and
`check_drug_interactions ["warfarin", "metformin"]` returns zero
interaction records, since the static table has no entry for that pair. -/
theorem C4_warfarin_aspirin (now₁ now₂ : String) :
    (check_drug_interactions ["warfarin", "aspirin"] now₁).interaction_details =
      [⟨"warfarin", "aspirin", "high", "Increased bleeding risk", "Monitor INR closely"⟩] ∧
    (check_drug_interactions ["warfarin", "metformin"] now₂).interaction_details = [] :=
  ⟨rfl, rfl⟩

/-- C3 counterexample: on the two distinct input drugs `"warfarin"` and
`"aspirin ibuprofen"`, the scan emits two records for the same unordered
pair of input drugs (the keywords `"aspirin"` and `"ibuprofen"` of the
warfarin table entry both occur in the second drug's name), because the
code scans the full `drugs x drugs x table` product, not `i < j`
index pairs. -/
theorem C3_duplicate_pair_cex :
    (check_drug_interactions ["warfarin", "aspirin ibuprofen"] "ts").interaction_details.map
        (fun r => (r.primary_drug, r.interacting_drug)) =
      [("warfarin", "aspirin ibuprofen"), ("warfarin", "aspirin ibuprofen")] := by
  decide

/-- C3 (amended): every interaction record pairs two drugs of the input
list, and never pairs a drug with itself (the two sides always differ after
lowercasing); but the scan is a full Cartesian product over the input list
and the table, so the same unordered pair can be reported more than once
(see the counterexample). -/
theorem C3_records_distinct_drugs (drugs : List String) (now : String)
    (r : InteractionRecord)
    (hr : r ∈ (check_drug_interactions drugs now).interaction_details) :
    r.primary_drug ∈ drugs ∧ r.interacting_drug ∈ drugs ∧
      toLowerStr r.interacting_drug ≠ toLowerStr r.primary_drug := by
  have hr2 : r ∈ interactionDetails drugs := hr
  simp only [interactionDetails, List.mem_flatMap] at hr2
  obtain ⟨drug, hdrug, hr2⟩ := hr2
  obtain ⟨entry, hentry, hr2⟩ := hr2
  by_cases hm : dbMatch (toLowerStr drug) entry.1 = true
  · rw [if_pos hm] at hr2
    simp only [List.mem_flatMap] at hr2
    obtain ⟨other, hother, hr2⟩ := hr2
    by_cases hne : toLowerStr other ≠ toLowerStr drug
    · rw [if_pos hne] at hr2
      simp only [List.mem_map, List.mem_filter] at hr2
      obtain ⟨i, _, rfl⟩ := hr2
      exact ⟨hdrug, hother, hne⟩
    · rw [if_neg hne] at hr2
      simp at hr2
  · rw [if_neg hm] at hr2
    simp at hr2

/-- Closed witness for `C3_records_distinct_drugs`, at the warfarin/aspirin
record of `check_drug_interactions ["warfarin", "aspirin"]`. -/
theorem C3_records_distinct_drugs_witness :
    ("warfarin" : String) ∈ ["warfarin", "aspirin"] ∧
    ("aspirin" : String) ∈ ["warfarin", "aspirin"] ∧
    toLowerStr "aspirin" ≠ toLowerStr "warfarin" :=
  C3_records_distinct_drugs ["warfarin", "aspirin"] "ts"
    ⟨"warfarin", "aspirin", "high", "Increased bleeding risk", "Monitor INR closely"⟩
    (by decide)

/-- Permuting the input drug list permutes the interaction records: the
multiset of records depends only on the multiset of input drugs. -/
theorem interactionDetails_perm {l₁ l₂ : List String} (h : l₁.Perm l₂) :
    (interactionDetails l₁).Perm (interactionDetails l₂) := by
  unfold interactionDetails
  refine (h.flatMap_right _).trans (List.Perm.flatMap_left _ ?_)
  intro drug _
  refine List.Perm.flatMap_left _ ?_
  intro entry _
  by_cases hm : dbMatch (toLowerStr drug) entry.1 = true
  · rw [if_pos hm, if_pos hm]
    exact h.flatMap_right _
  · rw [if_neg hm, if_neg hm]

/-- C5 counterexample: reversing the four-drug input list
`["warfarin", "aspirin", "metformin", "alcohol"]` yields the same two
interaction records in the opposite order, so the output record sequences
are not equal. -/
theorem C5_reverse_not_equal_cex :
    (check_drug_interactions
        (["warfarin", "aspirin", "metformin", "alcohol"].reverse) "ts").interaction_details ≠
    (check_drug_interactions
        ["warfarin", "aspirin", "metformin", "alcohol"] "ts").interaction_details := by
  decide

/-- C5 (amended): `check_drug_interactions` is order-independent up to
reordering of the output records: reversing the input drug list yields the
same interaction records as a permutation; and in particular
`["aspirin", "warfarin"]` yields literally the same single record as
`["warfarin", "aspirin"]`. -/
theorem C5_order_independence (drugs : List String) (now₁ now₂ : String) :
    ((check_drug_interactions drugs.reverse now₁).interaction_details).Perm
      ((check_drug_interactions drugs now₂).interaction_details) ∧
    (check_drug_interactions ["aspirin", "warfarin"] now₁).interaction_details =
      (check_drug_interactions ["warfarin", "aspirin"] now₂).interaction_details :=
  ⟨interactionDetails_perm (List.reverse_perm drugs), rfl⟩

/-- C9 counterexample: `check_drug_interactions` copies the wall-clock
reading into its `timestamp` field, so two calls on the identical drug list
at different clock readings give different outputs — the output is not
byte-identical and depends on the system clock. -/
theorem C9_timestamp_cex :
    check_drug_interactions ["warfarin"] "2024-01-01T00:00:00" ≠
    check_drug_interactions ["warfarin"] "2024-01-01T00:00:01" := by
  intro hcontra
  exact absurd (congrArg InteractionsResult.timestamp hcontra) (by decide)

/-- C9 (amended): `extract_soap_notes` and `calculate_chads2_score` are
pure functions of their input, and every field of
`check_drug_interactions` except `timestamp` is a pure function of the drug
list — only the timestamp field depends on the external clock reading. -/
theorem C9_determinism_modulo_timestamp :
    (∀ t, extract_soap_notes t = extract_soap_notes t) ∧
    (∀ pd, calculate_chads2_score pd = calculate_chads2_score pd) ∧
    (∀ drugs now₁ now₂, scoringFields (check_drug_interactions drugs now₁) =
      scoringFields (check_drug_interactions drugs now₂)) :=
  ⟨fun _ => rfl, fun _ => rfl, fun _ _ _ => rfl⟩

/-- C8: the fallback dispatcher is a total function that always returns a
record whose `soap_notes` field is the extractor's output; whenever the
transcript contains "atrial fibrillation" (case-insensitively) the
`chads2_score` sub-result is present; and whenever the transcript mentions
none of the fixed drug trigger words the `drug_interactions` sub-result is
absent. -/
theorem C8_dispatcher (t : String) :
    (MedGemma.fallback_run t).soap_notes = MedGemma.extract_soap_notes t ∧
    (strContains (toLowerStr t) "atrial fibrillation" = true →
      (MedGemma.fallback_run t).chads2_score.isSome = true) ∧
    ((∀ d ∈ MedGemma.drug_mentions, strContains (toLowerStr t) (toLowerStr d) = false) →
      (MedGemma.fallback_run t).drug_interactions = none) := by
  refine ⟨rfl, ?_, ?_⟩
  · intro hc
    have hany : MedGemma.chads2_triggers.any
        (fun tr => strContains (toLowerStr t) (toLowerStr tr)) = true := by
      rw [List.any_eq_true]
      exact ⟨"atrial fibrillation", by decide, hc⟩
    simp [MedGemma.fallback_run, hany]
  · intro hd
    have hfilter : MedGemma.drug_mentions.filter
        (fun d => strContains (toLowerStr t) (toLowerStr d)) = [] := by
      rw [List.filter_eq_nil_iff]
      intro d hdm
      simp [hd d hdm]
    simp [MedGemma.fallback_run, hfilter]

/-- Closed witness for `C8_dispatcher`, at the transcript
`"atrial fibrillation"` (which contains the CHADS2 trigger and none of the
drug trigger words). -/
theorem C8_dispatcher_witness :
    (MedGemma.fallback_run "atrial fibrillation").chads2_score.isSome = true ∧
    (MedGemma.fallback_run "atrial fibrillation").drug_interactions = none :=
  ⟨(C8_dispatcher "atrial fibrillation").2.1 (by decide),
   (C8_dispatcher "atrial fibrillation").2.2 (by decide)⟩

/-- C10: the SOAP extractor used by the fallback dispatcher ignores its
transcript argument, so the dispatcher's `soap_notes` sub-result is the
same fixed four-field record for every pair of transcripts. -/
theorem C10_soap_constant (t₁ t₂ : String) :
    (MedGemma.fallback_run t₁).soap_notes = (MedGemma.fallback_run t₂).soap_notes ∧
    (MedGemma.fallback_run t₁).soap_notes =
      { subjective := "Patient reports fatigue, shortness of breath, and chest discomfort."
        objective := "BP: 140/90, HR: 95, Temp: 98.6F, O2 Sat: 92%"
        assessment := "Possible cardiac ischemia, rule out myocardial infarction."
        plan := "Order ECG, cardiac enzymes, consider stress test and echocardiogram." } :=
  ⟨rfl, rfl⟩

end AuraMed


